import Mathlib

/-!
# Verification of the NodeSet session/registration state manager

Shallow embedding of the `NodeSetServiceManager` from
`common/nodeset-manager.go` (the session-authenticated API client with
status caching and retry-on-expiry) and of the nodeset API route handlers
(`server/api/nodeset/...`), together with proofs of the specified
properties.

Remote calls and the wallet are external collaborators: each operation is
parameterized by the outcomes those collaborators would produce (an
"environment"), and the embedding threads the manager state explicitly.
Network-call, request-execution and login counters are carried in the
operation outcomes so that statements about "no network call" and
"exactly one retry" are expressible.
-/

set_option maxRecDepth 10000

/-- Go `error` values as used by this subsystem: the distinguished sentinel
errors compared with `errors.Is`, `fmt.Errorf("...: %w", err)` wrapping, and
generic errors carrying only a message. -/
inductive GoError where
  /-- `nscommon.ErrInvalidSession` -/
  | errInvalidSession
  /-- `core.ErrUnregisteredNode` -/
  | errUnregisteredNode
  /-- `wallet.ErrWalletNotLoaded` -/
  | errWalletNotLoaded
  /-- `core.ErrAlreadyRegistered` -/
  | errAlreadyRegistered
  /-- `core.ErrNotWhitelisted` -/
  | errNotWhitelisted
  /-- `nscommon.ErrInvalidPermissions` -/
  | errInvalidPermissions
  /-- `stakewise.ErrInvalidPermissions` (a distinct sentinel value) -/
  | swErrInvalidPermissions
  /-- `v2constellation.ErrNodeUnauthorized` -/
  | errNodeUnauthorized
  /-- `nscommon.ErrIncorrectNodeAddress` -/
  | errIncorrectNodeAddress
  /-- `common.ErrNotRegisteredWithNodeSet` -/
  | errNotRegisteredWithNodeSet
  /-- `common.ErrWalletNotReady` -/
  | errWalletNotReady
  /-- `fmt.Errorf("<msg>: %w", inner)` -/
  | wrapped (msg : String) (inner : GoError)
  /-- any other error value, identified by its message -/
  | generic (msg : String)
  deriving DecidableEq, Repr

/-- `errors.Is(e, t)`: `e` equals the target or some error in its unwrap
chain does. -/
def GoError.is : GoError → GoError → Bool
  | .wrapped msg inner, t => (GoError.wrapped msg inner = t) || GoError.is inner t
  | e, t => e = t

/-- `err.Error()`: the rendered message, with `%w` wrapping shown as
`"msg: inner"` the way `fmt.Errorf` renders it. -/
def GoError.message : GoError → String
  | .errInvalidSession => "invalid or expired session"
  | .errUnregisteredNode => "node has not been registered with the NodeSet server yet"
  | .errWalletNotLoaded => "wallet is not loaded"
  | .errAlreadyRegistered => "node has already been registered with the NodeSet server"
  | .errNotWhitelisted => "node address has not been whitelisted on the provided NodeSet account"
  | .errInvalidPermissions => "account does not have permissions to access this resource"
  | .swErrInvalidPermissions => "account does not have permissions to access this StakeWise resource"
  | .errNodeUnauthorized => "node is not authorized"
  | .errIncorrectNodeAddress => "incorrect node address"
  | .errNotRegisteredWithNodeSet => "The node is not registered with the Node Set."
  | .errWalletNotReady => "The node does not have a wallet ready yet."
  | .wrapped msg inner => msg ++ ": " ++ inner.message
  | .generic msg => msg

/-- `api.NodeSetRegistrationStatus` -/
inductive NodeSetRegistrationStatus where
  | unknown
  | noWallet
  | unregistered
  | registered
  deriving DecidableEq, Repr

/-- `wallet.WalletStatus.Wallet` details used by this subsystem. -/
structure WalletDetails where
  isLoaded : Bool
  isOnDisk : Bool
  walletAddress : Nat
  deriving DecidableEq, Repr

/-- `wallet.WalletStatus.Address` details used by this subsystem. -/
structure AddressDetails where
  hasAddress : Bool
  nodeAddress : Nat
  deriving DecidableEq, Repr

/-- `wallet.WalletStatus.Password` details used by this subsystem. -/
structure PasswordDetails where
  isPasswordSaved : Bool
  deriving DecidableEq, Repr

/-- `wallet.WalletStatus` -/
structure WalletStatus where
  wallet : WalletDetails
  address : AddressDetails
  password : PasswordDetails
  deriving DecidableEq, Repr

/-- `services.CheckIfWalletReady` from `module-utils/services/utils.go`:
`none` means the wallet is ready, `some e` carries the specific
user-actionable error. -/
def CheckIfWalletReady (status : WalletStatus) : Option GoError :=
  if !status.address.hasAddress then
    some (.generic "The node currently does not have an address set.")
  else if !status.wallet.isLoaded then
    if status.wallet.isOnDisk then
      if !status.password.isPasswordSaved then
        some (.generic "The node has a node wallet on disk but does not have the password for it loaded.")
      else
        some (.generic "The node has a node wallet and a password on disk but there was an error loading it.")
    else
      some (.generic "The node currently does not have a node wallet keystore.")
  else if status.wallet.walletAddress ≠ status.address.nodeAddress then
    some (.generic "The wallet keystore of the node does not match the node address.")
  else
    none

/-- Response of `GET /nonce` (`m.v3Client.Core.Nonce`). -/
structure NonceData where
  nonce : String
  token : String
  deriving DecidableEq, Repr

/-- Response of `POST /login` (`m.v3Client.Core.Login`). -/
structure LoginData where
  token : String
  deriving DecidableEq, Repr

/-- The manager state guarded by the lock: the session token (mirrored into
the v3 client by `setSessionToken`) and the cached registration status. -/
structure NodeSetServiceManager where
  sessionToken : String
  clientSessionToken : String
  nodeRegistrationStatus : NodeSetRegistrationStatus
  deriving DecidableEq, Repr

/-- `NewNodeSetServiceManager`: fresh manager, status starts `Unknown`,
tokens start as Go zero values. -/
def NewNodeSetServiceManager : NodeSetServiceManager :=
  { sessionToken := ""
    clientSessionToken := ""
    nodeRegistrationStatus := .unknown }

/-- `setSessionToken`: stores the token on the manager and on the v3 client. -/
def setSessionToken (m : NodeSetServiceManager) (token : String) : NodeSetServiceManager :=
  { m with sessionToken := token, clientSessionToken := token }

/-- `setRegistrationStatus`: only sets `Unknown` if the status has not already
been figured out (`Unregistered` / `Registered` are preserved). -/
def setRegistrationStatus (m : NodeSetServiceManager) (status : NodeSetRegistrationStatus) :
    NodeSetServiceManager :=
  if status = .unknown ∧
      (m.nodeRegistrationStatus = .unregistered ∨ m.nodeRegistrationStatus = .registered) then
    m
  else
    { m with nodeRegistrationStatus := status }

/-- Outcomes the external collaborators produce during one login attempt:
the GetStatus result of the wallet, and the remote nonce and login endpoint
results. -/
structure LoginEnv where
  walletStatus : Except GoError WalletStatus
  nonceResult : Except GoError NonceData
  loginResult : Except GoError LoginData

/-- Result of one `loginImpl` run: the new manager state, the returned
error, and how many remote (network) calls were made. -/
structure LoginOutcome where
  state : NodeSetServiceManager
  error : Option GoError
  netCalls : Nat

/-- `loginImpl`: the login protocol. Checks the wallet locally, fetches a
nonce, stores it as a provisional session token, submits the signed login
request, and maps the outcome onto the cached registration status. -/
def loginImpl (m : NodeSetServiceManager) (env : LoginEnv) : LoginOutcome :=
  match env.walletStatus with
  | .error e =>
      { state := m
        error := some (.wrapped "error getting wallet status for login" e)
        netCalls := 0 }
  | .ok walletStatus =>
    match CheckIfWalletReady walletStatus with
    | some _ =>
        { state := { m with nodeRegistrationStatus := .noWallet }
          error := some (.generic "cannot log into nodeset, hyperdrive wallet not initialized yet")
          netCalls := 0 }
    | none =>
      match env.nonceResult with
      | .error e =>
          { state := setRegistrationStatus m .unknown
            error := some (.wrapped "error getting nonce for login" e)
            netCalls := 1 }
      | .ok nonceData =>
        let m₁ := setSessionToken m nonceData.token
        match env.loginResult with
        | .error e =>
          if e.is .errWalletNotLoaded then
            { state := setRegistrationStatus m₁ .noWallet
              error := some e
              netCalls := 2 }
          else if e.is .errUnregisteredNode then
            { state := setRegistrationStatus m₁ .unregistered
              error := none
              netCalls := 2 }
          else
            { state := setRegistrationStatus m₁ .unknown
              error := some (.wrapped "error logging in" e)
              netCalls := 2 }
        | .ok loginData =>
            { state := setRegistrationStatus (setSessionToken m₁ loginData.token) .registered
              error := none
              netCalls := 2 }

/-- Result of `GetRegistrationStatus`: new state, the returned status and
error, whether a login was forced, and the number of remote calls made. -/
structure GetStatusOutcome where
  state : NodeSetServiceManager
  status : NodeSetRegistrationStatus
  error : Option GoError
  logins : Nat
  netCalls : Nat

/-- `GetRegistrationStatus`: force-refresh via `loginImpl` when the cached
status is `Unknown` or `NoWallet`; otherwise return the cached status with
no network call. -/
def GetRegistrationStatus (m : NodeSetServiceManager) (env : LoginEnv) : GetStatusOutcome :=
  if m.nodeRegistrationStatus = .unknown ∨ m.nodeRegistrationStatus = .noWallet then
    let r := loginImpl m env
    { state := r.state
      status := r.state.nodeRegistrationStatus
      error := r.error
      logins := 1
      netCalls := r.netCalls }
  else
    { state := m
      status := m.nodeRegistrationStatus
      error := none
      logins := 0
      netCalls := 0 }

/-- `Login`: unconditionally performs the login protocol under the lock. -/
def Login (m : NodeSetServiceManager) (env : LoginEnv) : LoginOutcome :=
  loginImpl m env

/-- `RegistrationResult` -/
inductive RegistrationResult where
  | unknown
  | success
  | alreadyRegistered
  | notWhitelisted
  deriving DecidableEq, Repr

/-- Outcomes the external collaborators produce during `RegisterNode`:
the GetStatus result of the wallet and the remote `POST /node-address`
(`Core.NodeAddress`) result (`none` means the call succeeded). -/
structure RegisterEnv where
  walletStatus : Except GoError WalletStatus
  nodeAddressResult : Option GoError

/-- Result of `RegisterNode`. -/
structure RegisterOutcome where
  state : NodeSetServiceManager
  result : RegistrationResult
  error : Option GoError
  netCalls : Nat

/-- `RegisterNode`: requires a loaded wallet (fails fast before any network
call), submits the registration, and maps the distinguished remote errors
onto result codes. -/
def RegisterNode (m : NodeSetServiceManager) (env : RegisterEnv) : RegisterOutcome :=
  match env.walletStatus with
  | .error e =>
      { state := m
        result := .unknown
        error := some (.wrapped "error getting wallet status" e)
        netCalls := 0 }
  | .ok walletStatus =>
    if !walletStatus.wallet.isLoaded then
      { state := m
        result := .unknown
        error := some (.generic "cannot register node with NodeSet, wallet not loaded")
        netCalls := 0 }
    else
      match env.nodeAddressResult with
      | some e =>
        let m₁ := setRegistrationStatus m .unknown
        if e.is .errAlreadyRegistered then
          { state := m₁, result := .alreadyRegistered, error := none, netCalls := 1 }
        else if e.is .errNotWhitelisted then
          { state := m₁, result := .notWhitelisted, error := none, netCalls := 1 }
        else
          { state := m₁
            result := .unknown
            error := some (.wrapped "error registering node" e)
            netCalls := 1 }
      | none =>
          { state := m, result := .success, error := none, netCalls := 1 }

/-- Result of `runRequest`: the new state, the final result of the work
unit, how many times the work unit ran, how many logins were performed and
the total number of remote calls. -/
structure RunOutcome (α : Type) where
  state : NodeSetServiceManager
  result : Except GoError α
  fExecs : Nat
  logins : Nat
  netCalls : Nat

/-- `runRequest`: run the request; on the distinguished invalid-session
error log in again and re-run the request exactly once. The request is
modelled as a map from attempt index to the outcome of that attempt (the Go
closure writes its data into a captured variable; here the data travels in
the `Except`). -/
def runRequest {α : Type} (m : NodeSetServiceManager) (request : Nat → Except GoError α)
    (env : LoginEnv) : RunOutcome α :=
  match request 0 with
  | .ok a => { state := m, result := .ok a, fExecs := 1, logins := 0, netCalls := 1 }
  | .error e =>
    if e.is .errInvalidSession then
      let lo := loginImpl m env
      match lo.error with
      | some loginErr =>
          { state := lo.state
            result := .error loginErr
            fExecs := 1
            logins := 1
            netCalls := 1 + lo.netCalls }
      | none =>
          { state := lo.state
            result := request 1
            fExecs := 2
            logins := 1
            netCalls := 2 + lo.netCalls }
    else
      { state := m, result := .error e, fExecs := 1, logins := 0, netCalls := 1 }

/-- `serviceProvider.RequireWalletReady` from `common/requirements.go`,
as a function of the GetStatus outcome of the wallet. -/
def RequireWalletReady (wsRes : Except GoError WalletStatus) : Option GoError :=
  match wsRes with
  | .error e => some e
  | .ok status =>
    if !status.wallet.isLoaded then
      if status.wallet.isOnDisk then
        if !status.password.isPasswordSaved then
          some (.generic "The node has a node wallet on disk but does not have the password for it loaded. Please run `hyperdrive wallet set-password` to load it.")
        else
          some (.generic "The node has a node wallet and a password on disk but there was an error loading it - perhaps the password is incorrect? Please check the daemon logs for more information.")
      else
        some (.generic "The node currently does not have a node wallet keystore. Please run hyperdrive wallet init or hyperdrive wallet recover and try again.")
    else if !status.address.hasAddress then
      some (.generic "The node currently does not have an address set. Please run hyperdrive wallet restore-address or hyperdrive wallet masquerade and try again.")
    else if status.wallet.walletAddress ≠ status.address.nodeAddress then
      some (.generic "The wallet keystore of the node does not match the node address. This node is currently in read-only mode.")
    else
      none

/-- `serviceProvider.RequireRegisteredWithNodeSet`: consults
`GetRegistrationStatus` (possibly forcing a login) and turns non-registered
statuses into the corresponding sentinel errors. Returns the resulting
manager state alongside the error. -/
def RequireRegisteredWithNodeSet (m : NodeSetServiceManager) (env : LoginEnv) :
    NodeSetServiceManager × Option GoError :=
  let r := GetRegistrationStatus m env
  match r.error with
  | some e => (r.state, some e)
  | none =>
    match r.status with
    | .registered => (r.state, none)
    | .unregistered => (r.state, some .errNotRegisteredWithNodeSet)
    | .noWallet => (r.state, some .errWalletNotReady)
    | .unknown => (r.state, some (.generic "unknown registration status"))

/-- The value of one hex digit, `none` for a non-hex character
(models the decoding done by `utils.DecodeHex`). -/
def hexCharVal (c : Char) : Option Nat :=
  if '0' ≤ c ∧ c ≤ '9' then some (c.toNat - '0'.toNat)
  else if 'a' ≤ c ∧ c ≤ 'f' then some (c.toNat - 'a'.toNat + 10)
  else if 'A' ≤ c ∧ c ≤ 'F' then some (c.toNat - 'A'.toNat + 10)
  else none

/-- Decode pairs of hex digits into bytes; fails on odd length or a bad
digit. -/
def decodeHexChars : List Char → Option (List Nat)
  | [] => some []
  | [_] => none
  | c₁ :: c₂ :: rest =>
    match hexCharVal c₁, hexCharVal c₂, decodeHexChars rest with
    | some hi, some lo, some bytes => some ((16 * hi + lo) :: bytes)
    | _, _, _ => none

/-- `utils.DecodeHex`: strip an optional `0x` and decode the hex string. -/
def DecodeHex (s : String) : Except GoError (List Nat) :=
  let t := if s.startsWith "0x" then s.drop 2 else s
  match decodeHexChars t.toList with
  | some bytes => .ok bytes
  | none => .error (.generic "invalid hex string")

/-- `StakeWise_GetVaults`: run the vaults request through the retry
wrapper, wrapping any failure with the operation context (the source reuses
the "error getting registered validators" message here). Vault records are
opaque to this subsystem and modelled as numbers. -/
def StakeWise_GetVaults (m : NodeSetServiceManager) (request : Nat → Except GoError (List Nat))
    (env : LoginEnv) : RunOutcome (List Nat) :=
  let r := runRequest m request env
  match r.result with
  | .error e => { r with result := .error (.wrapped "error getting registered validators" e) }
  | .ok _ => r

/-- `Constellation_GetRegistrationSignature`: run the whitelist request
through the retry wrapper, wrap failures with the operation context, and
hex-decode the returned signature. -/
def Constellation_GetRegistrationSignature (m : NodeSetServiceManager)
    (request : Nat → Except GoError String) (env : LoginEnv) : RunOutcome (List Nat) :=
  let r := runRequest m request env
  match r.result with
  | .error e =>
      { state := r.state
        result := .error (.wrapped "error registering with Constellation" e)
        fExecs := r.fExecs
        logins := r.logins
        netCalls := r.netCalls }
  | .ok sig =>
    match DecodeHex sig with
    | .error e =>
        { state := r.state
          result := .error (.wrapped "error decoding signature from server" e)
          fExecs := r.fExecs
          logins := r.logins
          netCalls := r.netCalls }
    | .ok bytes =>
        { state := r.state
          result := .ok bytes
          fExecs := r.fExecs
          logins := r.logins
          netCalls := r.netCalls }

/-- `types.ResponseStatus` (the subset used by these handlers). -/
inductive ResponseStatus where
  | success
  | error
  | walletNotReady
  deriving DecidableEq, Repr

/-- `api.NodeSetStakeWise_GetVaultsData` -/
structure NodeSetStakeWiseGetVaultsData where
  notRegistered : Bool := false
  invalidPermissions : Bool := false
  vaults : List Nat := []
  deriving DecidableEq, Repr

/-- Outcome of PrepareData for the get-vaults route. -/
structure GetVaultsPrep where
  status : ResponseStatus
  error : Option GoError
  data : NodeSetStakeWiseGetVaultsData
  state : NodeSetServiceManager

/-- `stakeWiseGetVaultsContext.PrepareData` from
`server/api/nodeset/stakewise/get-vaults.go`. -/
def stakeWiseGetVaultsPrepareData (m : NodeSetServiceManager)
    (wsRes : Except GoError WalletStatus) (regEnv : LoginEnv)
    (request : Nat → Except GoError (List Nat)) (opEnv : LoginEnv) : GetVaultsPrep :=
  match RequireWalletReady wsRes with
  | some e => { status := .walletNotReady, error := some e, data := {}, state := m }
  | none =>
    let rr := RequireRegisteredWithNodeSet m regEnv
    match rr.2 with
    | some e =>
      if e.is .errNotRegisteredWithNodeSet then
        { status := .success, error := none, data := { notRegistered := true }, state := rr.1 }
      else
        { status := .error, error := some e, data := {}, state := rr.1 }
    | none =>
      let r := StakeWise_GetVaults rr.1 request opEnv
      match r.result with
      | .error e =>
        if e.is .swErrInvalidPermissions then
          { status := .success, error := none, data := { invalidPermissions := true }, state := r.state }
        else
          { status := .error, error := some e, data := {}, state := r.state }
      | .ok vaults =>
          { status := .success, error := none, data := { vaults := vaults }, state := r.state }

/-- `api.NodeSetConstellation_GetRegistrationSignatureData` -/
structure NodeSetConstellationGetRegistrationSignatureData where
  notRegistered : Bool := false
  notAuthorized : Bool := false
  invalidPermissions : Bool := false
  incorrectNodeAddress : Bool := false
  signature : List Nat := []
  deriving DecidableEq, Repr

/-- Outcome of PrepareData for the get-registration-signature route. -/
structure GetRegSigPrep where
  status : ResponseStatus
  error : Option GoError
  data : NodeSetConstellationGetRegistrationSignatureData
  state : NodeSetServiceManager

/-- `constellationGetRegistrationSignatureContext.PrepareData` from
`server/api/nodeset/constellation/get-registration-signature.go`. -/
def constellationGetRegistrationSignaturePrepareData (m : NodeSetServiceManager)
    (wsRes : Except GoError WalletStatus) (regEnv : LoginEnv)
    (request : Nat → Except GoError String) (opEnv : LoginEnv) : GetRegSigPrep :=
  match RequireWalletReady wsRes with
  | some e => { status := .walletNotReady, error := some e, data := {}, state := m }
  | none =>
    let rr := RequireRegisteredWithNodeSet m regEnv
    match rr.2 with
    | some e =>
      if e.is .errNotRegisteredWithNodeSet then
        { status := .success, error := none, data := { notRegistered := true }, state := rr.1 }
      else
        { status := .error, error := some e, data := {}, state := rr.1 }
    | none =>
      let r := Constellation_GetRegistrationSignature rr.1 request opEnv
      match r.result with
      | .error e =>
        if e.is .errNodeUnauthorized then
          { status := .success, error := none, data := { notAuthorized := true }, state := r.state }
        else if e.is .errInvalidPermissions then
          { status := .success, error := none, data := { invalidPermissions := true }, state := r.state }
        else if e.is .errIncorrectNodeAddress then
          { status := .success, error := none, data := { incorrectNodeAddress := true }, state := r.state }
        else
          { status := .error, error := some e, data := {}, state := r.state }
      | .ok bytes =>
          { status := .success, error := none, data := { signature := bytes }, state := r.state }

/-- `api.NodeSetGetRegistrationStatusData` -/
structure NodeSetGetRegistrationStatusData where
  status : NodeSetRegistrationStatus := .unknown
  errorMessage : String := ""
  deriving DecidableEq, Repr

/-- Outcome of PrepareData for the get-registration-status route. -/
structure GetRegStatusPrep where
  status : ResponseStatus
  error : Option GoError
  data : NodeSetGetRegistrationStatusData
  state : NodeSetServiceManager

/-- `nodeSetGetRegistrationStatusContext.PrepareData` from
`server/api/nodeset/get-registration-status.go`: read the status (possibly
forcing a login), expose the error text only for an `Unknown` status, and
always answer `Success`. -/
def nodeSetGetRegistrationStatusPrepareData (m : NodeSetServiceManager) (env : LoginEnv) :
    GetRegStatusPrep :=
  let r := GetRegistrationStatus m env
  let d : NodeSetGetRegistrationStatusData :=
    match r.error with
    | some e =>
      if r.status = .unknown then { status := r.status, errorMessage := e.message }
      else { status := r.status }
    | none => { status := r.status }
  { status := .success, error := none, data := d, state := r.state }

/-- One invocation of a manager operation together with the collaborator
outcomes it would observe. -/
inductive Op where
  | getStatus (env : LoginEnv)
  | loginOp (env : LoginEnv)
  | registerNode (env : RegisterEnv)
  | runReq (request : Nat → Except GoError Unit) (env : LoginEnv)

/-- Observable outcome of one operation: resulting state, returned error,
number of login attempts performed, number of remote calls made. -/
structure OpOutcome where
  state : NodeSetServiceManager
  error : Option GoError
  logins : Nat
  netCalls : Nat

/-- The error component of an `Except` outcome. -/
def exceptError {α : Type} : Except GoError α → Option GoError
  | .ok _ => none
  | .error e => some e

/-- Apply one operation to the manager state. -/
def applyOp (m : NodeSetServiceManager) : Op → OpOutcome
  | .getStatus env =>
    let r := GetRegistrationStatus m env
    { state := r.state, error := r.error, logins := r.logins, netCalls := r.netCalls }
  | .loginOp env =>
    let r := Login m env
    { state := r.state, error := r.error, logins := 1, netCalls := r.netCalls }
  | .registerNode env =>
    let r := RegisterNode m env
    { state := r.state, error := r.error, logins := 0, netCalls := r.netCalls }
  | .runReq request env =>
    let r := runRequest m request env
    { state := r.state, error := exceptError r.result, logins := r.logins, netCalls := r.netCalls }

/-- Run a sequence of operations from a starting state. -/
def execOps (m : NodeSetServiceManager) : List Op → NodeSetServiceManager
  | [] => m
  | op :: rest => execOps (applyOp m op).state rest

/-- The wallet reports success but is not loaded. -/
def envWalletUnloaded (env : LoginEnv) : Prop :=
  ∃ ws, env.walletStatus = .ok ws ∧ ws.wallet.isLoaded = false

/-- The wallet reports success but is not loaded (registration variant). -/
def regEnvWalletUnloaded (env : RegisterEnv) : Prop :=
  ∃ ws, env.walletStatus = .ok ws ∧ ws.wallet.isLoaded = false

/-- Every collaborator outcome an operation observes reports an unloaded
wallet. -/
def opWalletUnloaded : Op → Prop
  | .getStatus env => envWalletUnloaded env
  | .loginOp env => envWalletUnloaded env
  | .registerNode env => regEnvWalletUnloaded env
  | .runReq _ env => envWalletUnloaded env

/-- Concrete ready wallet status for witnesses and scenarios. -/
def wsReady : WalletStatus :=
  { wallet := { isLoaded := true, isOnDisk := true, walletAddress := 42 }
    address := { hasAddress := true, nodeAddress := 42 }
    password := { isPasswordSaved := true } }

/-- Concrete never-loaded wallet status (no keystore on disk). -/
def wsUnloaded : WalletStatus :=
  { wallet := { isLoaded := false, isOnDisk := false, walletAddress := 0 }
    address := { hasAddress := true, nodeAddress := 0 }
    password := { isPasswordSaved := false } }

/-- Collaborator outcomes when the wallet is not loaded (the remote is
never reached, so the remote outcomes are irrelevant placeholders). -/
def envUnloadedEx : LoginEnv :=
  { walletStatus := .ok wsUnloaded
    nonceResult := .error (.generic "unreachable")
    loginResult := .error (.generic "unreachable") }

/-- Registration-call outcomes when the wallet is not loaded. -/
def regEnvUnloadedEx : RegisterEnv :=
  { walletStatus := .ok wsUnloaded, nodeAddressResult := none }

/-- Wallet ready, remote reports the node is unregistered on login. -/
def envUnregisteredEx : LoginEnv :=
  { walletStatus := .ok wsReady
    nonceResult := .ok { nonce := "nonce1", token := "nonce-token-1" }
    loginResult := .error .errUnregisteredNode }

/-- Wallet ready, nonce and login both succeed. -/
def envLoginOkEx : LoginEnv :=
  { walletStatus := .ok wsReady
    nonceResult := .ok { nonce := "nonce2", token := "nonce-token-2" }
    loginResult := .ok { token := "session-token-2" } }

/-- Wallet ready but the nonce request fails with a transport error. -/
def envNonceFailEx : LoginEnv :=
  { walletStatus := .ok wsReady
    nonceResult := .error (.generic "connection refused")
    loginResult := .error (.generic "unused") }

/-- Wallet ready, nonce succeeds, login fails with an unrecognized error. -/
def envLoginGenericFailEx : LoginEnv :=
  { walletStatus := .ok wsReady
    nonceResult := .ok { nonce := "nonce3", token := "nonce-token-3" }
    loginResult := .error (.generic "server exploded") }

/-- Wallet loaded, remote registration succeeds. -/
def regEnvOkEx : RegisterEnv :=
  { walletStatus := .ok wsReady, nodeAddressResult := none }

/-- Wallet loaded, remote registration fails with an unrecognized error. -/
def regEnvGenericFailEx : RegisterEnv :=
  { walletStatus := .ok wsReady, nodeAddressResult := some (.generic "boom") }

/-- Wallet loaded, remote reports the node is already registered. -/
def regEnvAlreadyEx : RegisterEnv :=
  { walletStatus := .ok wsReady, nodeAddressResult := some .errAlreadyRegistered }

/-- A manager whose cached status is `Registered`. -/
def mRegisteredEx : NodeSetServiceManager :=
  { sessionToken := "tok", clientSessionToken := "tok", nodeRegistrationStatus := .registered }

/-- A work unit that reports an invalid session on every attempt. -/
def reqInvalidTwiceEx : Nat → Except GoError Unit :=
  fun _ => .error .errInvalidSession

/-- End-to-end scenario, step 1: wallet not yet loaded, ask for the
registration status. -/
def e2eStep1 : GetStatusOutcome := GetRegistrationStatus NewNodeSetServiceManager envUnloadedEx

/-- Step 2: wallet loaded but the node is not registered on the remote. -/
def e2eStep2 : GetStatusOutcome := GetRegistrationStatus e2eStep1.state envUnregisteredEx

/-- Step 3: the address is whitelisted and registration succeeds. -/
def e2eStep3 : RegisterOutcome := RegisterNode e2eStep2.state regEnvOkEx

/-- Step 4: ask for the registration status again (remote would accept a
login now). -/
def e2eStep4 : GetStatusOutcome := GetRegistrationStatus e2eStep3.state envLoginOkEx

/-- An explicit login after the successful registration. -/
def e2eLogin : LoginOutcome := Login e2eStep3.state envLoginOkEx

/-- Step 5: the registration status after that explicit login. -/
def e2eStep5 : GetStatusOutcome := GetRegistrationStatus e2eLogin.state envLoginOkEx

/-- A sequence of operations all observing an unloaded wallet. -/
def opsUnloadedEx : List Op :=
  [.getStatus envUnloadedEx, .loginOp envUnloadedEx, .registerNode regEnvUnloadedEx]

/-- A vaults request that fails with the StakeWise invalid-permissions
sentinel on every attempt. -/
def reqSwInvalidPermsEx : Nat → Except GoError (List Nat) :=
  fun _ => .error .swErrInvalidPermissions

/-- A whitelist request that fails with the node-unauthorized sentinel on
every attempt. -/
def reqConstUnauthorizedEx : Nat → Except GoError String :=
  fun _ => .error .errNodeUnauthorized

/-- The operation extracted a login environment: true for the operations
that can run `loginImpl`, with the environment that login would observe. -/
def opUsesLoginEnv : Op → LoginEnv → Prop
  | .getStatus env, env₁ => env₁ = env
  | .loginOp env, env₁ => env₁ = env
  | .registerNode _, _ => False
  | .runReq _ env, env₁ => env₁ = env

lemma setRegistrationStatus_unknown_of_known (m : NodeSetServiceManager)
    (h : m.nodeRegistrationStatus = .unregistered ∨ m.nodeRegistrationStatus = .registered) :
    setRegistrationStatus m .unknown = m := by
  unfold setRegistrationStatus
  rw [if_pos ⟨rfl, h⟩]

lemma setRegistrationStatus_of_ne_unknown (m : NodeSetServiceManager)
    (s : NodeSetRegistrationStatus) (hs : s ≠ .unknown) :
    setRegistrationStatus m s = { m with nodeRegistrationStatus := s } := by
  unfold setRegistrationStatus
  rw [if_neg]
  rintro ⟨h₁, _⟩
  exact hs h₁

lemma getStatus_cached (m : NodeSetServiceManager) (env : LoginEnv)
    (h : m.nodeRegistrationStatus = .unregistered ∨ m.nodeRegistrationStatus = .registered) :
    GetRegistrationStatus m env = ⟨m, m.nodeRegistrationStatus, none, 0, 0⟩ := by
  rcases h with h | h <;> simp [GetRegistrationStatus, h]

lemma getStatus_forced (m : NodeSetServiceManager) (env : LoginEnv)
    (h : m.nodeRegistrationStatus = .unknown ∨ m.nodeRegistrationStatus = .noWallet) :
    GetRegistrationStatus m env =
      ⟨(loginImpl m env).state, (loginImpl m env).state.nodeRegistrationStatus,
        (loginImpl m env).error, 1, (loginImpl m env).netCalls⟩ := by
  rcases h with h | h <;> simp [GetRegistrationStatus, h]

lemma getStatus_status_eq (m : NodeSetServiceManager) (env : LoginEnv) :
    (GetRegistrationStatus m env).status =
      (GetRegistrationStatus m env).state.nodeRegistrationStatus := by
  unfold GetRegistrationStatus
  split <;> rfl

lemma loginImpl_known (m : NodeSetServiceManager) (env : LoginEnv)
    (h : m.nodeRegistrationStatus = .unregistered ∨ m.nodeRegistrationStatus = .registered) :
    ((loginImpl m env).error.isSome →
      (loginImpl m env).state.nodeRegistrationStatus = m.nodeRegistrationStatus ∨
      (loginImpl m env).state.nodeRegistrationStatus = .noWallet) ∧
    ((loginImpl m env).error = none →
      (loginImpl m env).state.nodeRegistrationStatus = .unregistered ∨
      (loginImpl m env).state.nodeRegistrationStatus = .registered) := by
  rcases hws : env.walletStatus with e | ws
  · simp [loginImpl, hws]
  · rcases hcw : CheckIfWalletReady ws with _ | cerr
    · rcases hnonce : env.nonceResult with e | nd
      · simp [loginImpl, hws, hcw, hnonce, setRegistrationStatus_unknown_of_known m h]
      · rcases hlogin : env.loginResult with e | ld
        · by_cases h₁ : e.is .errWalletNotLoaded
          · simp [loginImpl, hws, hcw, hnonce, hlogin, h₁, setRegistrationStatus]
          · by_cases h₂ : e.is .errUnregisteredNode
            · simp [loginImpl, hws, hcw, hnonce, hlogin, h₁, h₂, setRegistrationStatus]
            · have hsticky : ∀ tok : String, setRegistrationStatus
                  { sessionToken := tok, clientSessionToken := tok,
                    nodeRegistrationStatus := m.nodeRegistrationStatus } .unknown =
                  { sessionToken := tok, clientSessionToken := tok,
                    nodeRegistrationStatus := m.nodeRegistrationStatus } := by
                intro tok
                exact setRegistrationStatus_unknown_of_known _ h
              simp [loginImpl, hws, hcw, hnonce, hlogin, h₁, h₂, setSessionToken, hsticky]
        · simp [loginImpl, hws, hcw, hnonce, hlogin, setRegistrationStatus, setSessionToken]
    · simp [loginImpl, hws, hcw]

lemma loginImpl_known_not_unknown (m : NodeSetServiceManager) (env : LoginEnv)
    (h : m.nodeRegistrationStatus = .unregistered ∨ m.nodeRegistrationStatus = .registered) :
    (loginImpl m env).state.nodeRegistrationStatus ≠ .unknown := by
  have hk := loginImpl_known m env h
  cases herr : (loginImpl m env).error with
  | none =>
    rcases hk.2 herr with h₁ | h₁ <;> simp [h₁]
  | some e =>
    rcases hk.1 (by simp [herr]) with h₁ | h₁
    · rw [h₁]
      rcases h with h₂ | h₂ <;> simp [h₂]
    · simp [h₁]

lemma registerNode_state_known (m : NodeSetServiceManager) (env : RegisterEnv)
    (h : m.nodeRegistrationStatus = .unregistered ∨ m.nodeRegistrationStatus = .registered) :
    (RegisterNode m env).state = m := by
  rcases hws : env.walletStatus with e | ws
  · simp [RegisterNode, hws]
  · by_cases hl : ws.wallet.isLoaded
    · rcases hna : env.nodeAddressResult with _ | e
      · simp [RegisterNode, hws, hl, hna]
      · by_cases h₁ : e.is .errAlreadyRegistered <;> by_cases h₂ : e.is .errNotWhitelisted <;>
          simp [RegisterNode, hws, hl, hna, h₁, h₂, setRegistrationStatus_unknown_of_known m h]
    · simp [RegisterNode, hws, hl]

lemma checkIfWalletReady_isSome_of_unloaded (ws : WalletStatus)
    (h : ws.wallet.isLoaded = false) : (CheckIfWalletReady ws).isSome := by
  rcases ws with ⟨⟨il, od, wa⟩, ⟨ha, na⟩, ⟨ps⟩⟩
  simp only at h
  subst h
  cases ha <;> cases od <;> cases ps <;> simp [CheckIfWalletReady]

lemma loginImpl_unloaded (m : NodeSetServiceManager) (env : LoginEnv)
    (h : envWalletUnloaded env) :
    loginImpl m env =
      ⟨{ m with nodeRegistrationStatus := .noWallet },
        some (.generic "cannot log into nodeset, hyperdrive wallet not initialized yet"), 0⟩ := by
  obtain ⟨ws, hws, hl⟩ := h
  obtain ⟨cerr, hcerr⟩ := Option.isSome_iff_exists.mp (checkIfWalletReady_isSome_of_unloaded ws hl)
  simp [loginImpl, hws, hcerr]

/-- C1: For every operation of the NodeSetServiceManager, if the cached
registration status is `Unregistered` or `Registered` before the operation,
any attempt to set the status to `Unknown` leaves the cached status
unchanged, and no operation can leave the status at `Unknown`; in
particular, after `GetRegistrationStatus` has returned `Registered`, a
subsequent `Login` whose nonce request fails with a transport error leaves
the cached status `Registered`. -/
theorem c1_unknown_never_overwrites_known (m : NodeSetServiceManager) (op : Op)
    (h : m.nodeRegistrationStatus = .unregistered ∨ m.nodeRegistrationStatus = .registered) :
    setRegistrationStatus m .unknown = m ∧
    (applyOp m op).state.nodeRegistrationStatus ≠ .unknown ∧
    (∀ (m₀ : NodeSetServiceManager) (env₀ env₁ : LoginEnv) (ws : WalletStatus) (e : GoError),
      (GetRegistrationStatus m₀ env₀).status = .registered →
      env₁.walletStatus = .ok ws → CheckIfWalletReady ws = none →
      env₁.nonceResult = .error e →
      (Login (GetRegistrationStatus m₀ env₀).state env₁).state.nodeRegistrationStatus =
        .registered) := by
  refine ⟨setRegistrationStatus_unknown_of_known m h, ?_, ?_⟩
  · cases op with
    | getStatus env =>
      have hc := getStatus_cached m env h
      simp only [applyOp, hc]
      rcases h with h₁ | h₁ <;> simp [h₁]
    | loginOp env =>
      simpa [applyOp, Login] using loginImpl_known_not_unknown m env h
    | registerNode env =>
      have hr := registerNode_state_known m env h
      simp only [applyOp, hr]
      rcases h with h₁ | h₁ <;> simp [h₁]
    | runReq request env =>
      rcases hr0 : request 0 with e | a
      · by_cases his : e.is .errInvalidSession = true
        · cases hle : (loginImpl m env).error with
          | none =>
            simp only [applyOp, runRequest, hr0, his, hle, if_true]
            exact loginImpl_known_not_unknown m env h
          | some le =>
            simp only [applyOp, runRequest, hr0, his, hle, if_true]
            exact loginImpl_known_not_unknown m env h
        · rcases h with h₁ | h₁ <;> simp [applyOp, runRequest, hr0, his, h₁]
      · simp only [applyOp, runRequest, hr0]
        rcases h with h₁ | h₁ <;> simp [h₁]
  · intro m₀ env₀ env₁ ws e hreg hws hcw hnonce
    have hstate : (GetRegistrationStatus m₀ env₀).state.nodeRegistrationStatus = .registered := by
      rw [← getStatus_status_eq]
      exact hreg
    have hsticky := setRegistrationStatus_unknown_of_known
      (GetRegistrationStatus m₀ env₀).state (Or.inr hstate)
    simp [Login, loginImpl, hws, hcw, hnonce, hsticky, hstate]

/-- C1 witness: at a concrete `Registered` manager and concrete
environments, the sticky setter is the identity, a login with a failing
nonce request does not leave `Unknown`, and the status stays `Registered`. -/
theorem c1_witness :
    setRegistrationStatus mRegisteredEx .unknown = mRegisteredEx ∧
    (applyOp mRegisteredEx (.loginOp envNonceFailEx)).state.nodeRegistrationStatus ≠ .unknown ∧
    (Login (GetRegistrationStatus mRegisteredEx envNonceFailEx).state
      envNonceFailEx).state.nodeRegistrationStatus = .registered := by
  obtain ⟨h₁, h₂, h₃⟩ :=
    c1_unknown_never_overwrites_known mRegisteredEx (.loginOp envNonceFailEx) (Or.inr rfl)
  exact ⟨h₁, h₂,
    h₃ mRegisteredEx envNonceFailEx envNonceFailEx wsReady (.generic "connection refused")
      (by decide) rfl (by decide) rfl⟩

/-- C2: the retry wrapper returns a first success or a first
non-session error immediately with no login; on the invalid-session error
it performs exactly one login — a failed login is returned without
re-running the work unit, and after a successful login the work unit runs
exactly once more and its outcome is returned as-is. -/
theorem c2_run_request_single_retry {α : Type} (m : NodeSetServiceManager)
    (request : Nat → Except GoError α) (env : LoginEnv) :
    (∀ a, request 0 = .ok a →
      runRequest m request env =
        { state := m, result := .ok a, fExecs := 1, logins := 0, netCalls := 1 }) ∧
    (∀ e, request 0 = .error e → e.is .errInvalidSession = false →
      runRequest m request env =
        { state := m, result := .error e, fExecs := 1, logins := 0, netCalls := 1 }) ∧
    (∀ e le, request 0 = .error e → e.is .errInvalidSession = true →
      (loginImpl m env).error = some le →
      runRequest m request env =
        { state := (loginImpl m env).state, result := .error le, fExecs := 1, logins := 1,
          netCalls := 1 + (loginImpl m env).netCalls }) ∧
    (∀ e, request 0 = .error e → e.is .errInvalidSession = true →
      (loginImpl m env).error = none →
      runRequest m request env =
        { state := (loginImpl m env).state, result := request 1, fExecs := 2, logins := 1,
          netCalls := 2 + (loginImpl m env).netCalls }) := by
  refine ⟨?_, ?_, ?_, ?_⟩
  · intro a ha
    simp [runRequest, ha]
  · intro e he his
    simp [runRequest, he, his]
  · intro e le he his hle
    simp [runRequest, he, his, hle]
  · intro e he his hle
    simp [runRequest, he, his, hle]

/-- C2 witness: a work unit that reports an invalid session on both
attempts gets exactly one login and exactly two executions, and the second
invalid-session outcome is surfaced as-is. -/
theorem c2_witness :
    runRequest NewNodeSetServiceManager reqInvalidTwiceEx envLoginOkEx =
      { state := (loginImpl NewNodeSetServiceManager envLoginOkEx).state,
        result := .error .errInvalidSession, fExecs := 2, logins := 1,
        netCalls := 2 + (loginImpl NewNodeSetServiceManager envLoginOkEx).netCalls } :=
  (c2_run_request_single_retry NewNodeSetServiceManager reqInvalidTwiceEx envLoginOkEx).2.2.2
    .errInvalidSession rfl (by decide) (by decide)

/-- C3: `GetRegistrationStatus` returns the cached status with a nil error
and no login or network call when the cached status is `Unregistered` or
`Registered`; when it is `Unknown` or `NoWallet` it performs a login
attempt and returns the resulting status and error of that attempt. -/
theorem c3_get_registration_status_paths (m : NodeSetServiceManager) (env : LoginEnv) :
    ((m.nodeRegistrationStatus = .unregistered ∨ m.nodeRegistrationStatus = .registered) →
      GetRegistrationStatus m env =
        { state := m, status := m.nodeRegistrationStatus, error := none, logins := 0,
          netCalls := 0 }) ∧
    ((m.nodeRegistrationStatus = .unknown ∨ m.nodeRegistrationStatus = .noWallet) →
      GetRegistrationStatus m env =
        { state := (loginImpl m env).state,
          status := (loginImpl m env).state.nodeRegistrationStatus,
          error := (loginImpl m env).error, logins := 1,
          netCalls := (loginImpl m env).netCalls }) :=
  ⟨getStatus_cached m env, getStatus_forced m env⟩

/-- C3 witness: a `Registered` cache is returned untouched with zero
network calls; a fresh (`Unknown`) cache forces a login and reports that
outcome of that login. -/
theorem c3_witness :
    GetRegistrationStatus mRegisteredEx envNonceFailEx =
      { state := mRegisteredEx, status := .registered, error := none, logins := 0,
        netCalls := 0 } ∧
    GetRegistrationStatus NewNodeSetServiceManager envUnregisteredEx =
      { state := (loginImpl NewNodeSetServiceManager envUnregisteredEx).state,
        status := (loginImpl NewNodeSetServiceManager envUnregisteredEx).state.nodeRegistrationStatus,
        error := (loginImpl NewNodeSetServiceManager envUnregisteredEx).error, logins := 1,
        netCalls := (loginImpl NewNodeSetServiceManager envUnregisteredEx).netCalls } :=
  ⟨(c3_get_registration_status_paths mRegisteredEx envNonceFailEx).1 (Or.inr rfl),
    (c3_get_registration_status_paths NewNodeSetServiceManager envUnregisteredEx).2 (Or.inl rfl)⟩

/-- C4 counterexample: with the cached status `Registered`, the wallet
ready and the nonce fetch succeeding, a login failure that is neither
unregistered-node nor wallet-not-loaded returns the error but leaves the
cached status `Registered` — it is NOT set to `Unknown` as the claim
states. -/
theorem c4_counterexample :
    (GoError.generic "server exploded").is .errUnregisteredNode = false ∧
    (GoError.generic "server exploded").is .errWalletNotLoaded = false ∧
    (loginImpl mRegisteredEx envLoginGenericFailEx).error =
      some (.wrapped "error logging in" (.generic "server exploded")) ∧
    (loginImpl mRegisteredEx envLoginGenericFailEx).state.nodeRegistrationStatus = .registered ∧
    NodeSetRegistrationStatus.registered ≠ .unknown := by
  decide

/-- C4 (amended): with the wallet ready and the nonce fetch succeeding,
`loginImpl` maps its login outcome as follows — a remote unregistered-node
error sets the status `Unregistered` and returns nil; a remote
wallet-not-loaded error sets the status `NoWallet` and returns the error;
any other login error returns that (wrapped) error and applies the guarded
reset, which sets `Unknown` only when the cached status is not
`Unregistered`/`Registered` (those are preserved); on success the returned
token becomes the active session token and the status becomes
`Registered`. -/
theorem c4_login_outcome_mapping (m : NodeSetServiceManager) (env : LoginEnv)
    (ws : WalletStatus) (nd : NonceData)
    (hws : env.walletStatus = .ok ws) (hcw : CheckIfWalletReady ws = none)
    (hnonce : env.nonceResult = .ok nd) :
    (∀ e, env.loginResult = .error e → e.is .errWalletNotLoaded = false →
      e.is .errUnregisteredNode = true →
      (loginImpl m env).state.nodeRegistrationStatus = .unregistered ∧
      (loginImpl m env).error = none) ∧
    (∀ e, env.loginResult = .error e → e.is .errWalletNotLoaded = true →
      (loginImpl m env).state.nodeRegistrationStatus = .noWallet ∧
      (loginImpl m env).error = some e) ∧
    (∀ e, env.loginResult = .error e → e.is .errWalletNotLoaded = false →
      e.is .errUnregisteredNode = false →
      (loginImpl m env).error = some (.wrapped "error logging in" e) ∧
      (loginImpl m env).state = setRegistrationStatus (setSessionToken m nd.token) .unknown ∧
      (loginImpl m env).state.nodeRegistrationStatus =
        (if m.nodeRegistrationStatus = .unregistered ∨ m.nodeRegistrationStatus = .registered
          then m.nodeRegistrationStatus else .unknown)) ∧
    (∀ ld, env.loginResult = .ok ld →
      (loginImpl m env).state.nodeRegistrationStatus = .registered ∧
      (loginImpl m env).state.sessionToken = ld.token ∧
      (loginImpl m env).error = none) := by
  refine ⟨?_, ?_, ?_, ?_⟩
  · intro e hl h₁ h₂
    simp [loginImpl, hws, hcw, hnonce, hl, h₁, h₂, setRegistrationStatus]
  · intro e hl h₁
    simp [loginImpl, hws, hcw, hnonce, hl, h₁, setRegistrationStatus]
  · intro e hl h₁ h₂
    by_cases hk : m.nodeRegistrationStatus = .unregistered ∨ m.nodeRegistrationStatus = .registered
    · simp [loginImpl, hws, hcw, hnonce, hl, h₁, h₂, setSessionToken, setRegistrationStatus, hk]
    · simp [loginImpl, hws, hcw, hnonce, hl, h₁, h₂, setSessionToken, setRegistrationStatus, hk]
  · intro ld hl
    simp [loginImpl, hws, hcw, hnonce, hl, setRegistrationStatus, setSessionToken]

/-- C4 witness: a concrete successful login stores the returned token and
sets the status `Registered`. -/
theorem c4_witness :
    (loginImpl NewNodeSetServiceManager envLoginOkEx).state.nodeRegistrationStatus = .registered ∧
    (loginImpl NewNodeSetServiceManager envLoginOkEx).state.sessionToken = "session-token-2" ∧
    (loginImpl NewNodeSetServiceManager envLoginOkEx).error = none :=
  (c4_login_outcome_mapping NewNodeSetServiceManager envLoginOkEx wsReady
    { nonce := "nonce2", token := "nonce-token-2" } rfl (by decide) rfl).2.2.2
    { token := "session-token-2" } rfl

/-- C5 counterexample: in the end-to-end scenario (no wallet → `NoWallet`;
wallet loaded, unregistered remote → `Unregistered`; `RegisterNode`
succeeds with `Success`) the subsequent `GetRegistrationStatus` returns
`Unregistered`, not `Registered`: a successful registration does not
update the cached status and the cached `Unregistered` suppresses any
refresh. -/
theorem c5_counterexample :
    e2eStep1.status = .noWallet ∧
    e2eStep2.status = .unregistered ∧
    e2eStep3.result = .success ∧
    e2eStep3.error = none ∧
    e2eStep4.status = .unregistered ∧
    e2eStep4.status ≠ .registered := by
  decide

/-- C5 (amended): in the end-to-end scenario the calls return `NoWallet`,
then `Unregistered`, then `Success`; the subsequent `GetRegistrationStatus`
still returns the cached `Unregistered` (with no further network calls),
and only after an additional explicit successful `Login` does
`GetRegistrationStatus` return `Registered`. -/
theorem c5_end_to_end_scenario :
    e2eStep1.status = .noWallet ∧
    e2eStep2.status = .unregistered ∧
    e2eStep3.result = .success ∧
    e2eStep3.error = none ∧
    e2eStep4.status = .unregistered ∧
    e2eStep4.netCalls = 0 ∧
    e2eLogin.error = none ∧
    e2eStep5.status = .registered := by
  decide

/-- C6 counterexample: with the cached status `Registered` and the wallet
loaded, an ambiguous registration failure returns the error but does NOT
reset the cached status to `Unknown` — it stays `Registered` because of
the guarded setter. -/
theorem c6_counterexample :
    (RegisterNode mRegisteredEx regEnvGenericFailEx).error =
      some (.wrapped "error registering node" (.generic "boom")) ∧
    (RegisterNode mRegisteredEx regEnvGenericFailEx).result = .unknown ∧
    (RegisterNode mRegisteredEx regEnvGenericFailEx).state.nodeRegistrationStatus = .registered ∧
    NodeSetRegistrationStatus.registered ≠ .unknown := by
  decide

/-- C6 (amended): `RegisterNode` fails fast with a descriptive error and
result `Unknown` before any network call when the wallet is not loaded;
remote already-registered and not-whitelisted errors map to the
`AlreadyRegistered` / `NotWhitelisted` results with nil error; any other
failure returns the (wrapped) error; every failure applies the guarded
reset, which sets the cached status to `Unknown` only when it is not
currently `Unregistered`/`Registered` (those are preserved). -/
theorem c6_register_node_mapping (m : NodeSetServiceManager) (env : RegisterEnv)
    (ws : WalletStatus) (hws : env.walletStatus = .ok ws) :
    (ws.wallet.isLoaded = false →
      RegisterNode m env =
        { state := m, result := .unknown,
          error := some (.generic "cannot register node with NodeSet, wallet not loaded"),
          netCalls := 0 }) ∧
    (∀ e, ws.wallet.isLoaded = true → env.nodeAddressResult = some e →
      (e.is .errAlreadyRegistered = true →
        RegisterNode m env =
          { state := setRegistrationStatus m .unknown, result := .alreadyRegistered,
            error := none, netCalls := 1 }) ∧
      (e.is .errAlreadyRegistered = false → e.is .errNotWhitelisted = true →
        RegisterNode m env =
          { state := setRegistrationStatus m .unknown, result := .notWhitelisted,
            error := none, netCalls := 1 }) ∧
      (e.is .errAlreadyRegistered = false → e.is .errNotWhitelisted = false →
        RegisterNode m env =
          { state := setRegistrationStatus m .unknown, result := .unknown,
            error := some (.wrapped "error registering node" e), netCalls := 1 })) ∧
    (ws.wallet.isLoaded = true → env.nodeAddressResult = none →
      RegisterNode m env = { state := m, result := .success, error := none, netCalls := 1 }) ∧
    (setRegistrationStatus m .unknown).nodeRegistrationStatus =
      (if m.nodeRegistrationStatus = .unregistered ∨ m.nodeRegistrationStatus = .registered
        then m.nodeRegistrationStatus else .unknown) := by
  refine ⟨?_, ?_, ?_, ?_⟩
  · intro hl
    simp [RegisterNode, hws, hl]
  · intro e hl hna
    refine ⟨?_, ?_, ?_⟩
    · intro h₁
      simp [RegisterNode, hws, hl, hna, h₁]
    · intro h₁ h₂
      simp [RegisterNode, hws, hl, hna, h₁, h₂]
    · intro h₁ h₂
      simp [RegisterNode, hws, hl, hna, h₁, h₂]
  · intro hl hna
    simp [RegisterNode, hws, hl, hna]
  · by_cases hk : m.nodeRegistrationStatus = .unregistered ∨ m.nodeRegistrationStatus = .registered
    · simp [setRegistrationStatus, hk]
    · simp [setRegistrationStatus, hk]

/-- C6 witness: a second registration of the same wallet, where the remote
reports already-registered, yields the `AlreadyRegistered` result with nil
error. -/
theorem c6_witness :
    RegisterNode mRegisteredEx regEnvAlreadyEx =
      { state := setRegistrationStatus mRegisteredEx .unknown, result := .alreadyRegistered,
        error := none, netCalls := 1 } :=
  ((c6_register_node_mapping mRegisteredEx regEnvAlreadyEx wsReady rfl).2.1
    .errAlreadyRegistered rfl rfl).1 (by decide)

/-- C7 counterexample: with the cached status `Registered`, a `Login`
attempted while the wallet is no longer ready returns an error AND
transitions the cached status away from `Registered` (to `NoWallet`),
contradicting the claim that no error-returning operation ever leaves
`Unregistered`/`Registered`. -/
theorem c7_counterexample :
    mRegisteredEx.nodeRegistrationStatus = .registered ∧
    (Login mRegisteredEx envUnloadedEx).error.isSome = true ∧
    (Login mRegisteredEx envUnloadedEx).state.nodeRegistrationStatus = .noWallet ∧
    (Login mRegisteredEx envUnloadedEx).state.nodeRegistrationStatus ≠ .registered := by
  decide

/-- C7 (amended): whenever the cached status is `Unregistered` or
`Registered` before an operation and differs after it, that operation
performed a login attempt; the new status is never `Unknown`; if the new
status is `NoWallet` the operation returned an error (the login failed);
and a transition to `Unregistered` or `Registered` comes from a login
attempt that itself completed without error (even though the surrounding
operation may still return an error from a retried request). -/
theorem c7_known_status_transitions (m : NodeSetServiceManager) (op : Op)
    (h : m.nodeRegistrationStatus = .unregistered ∨ m.nodeRegistrationStatus = .registered)
    (hchange : (applyOp m op).state.nodeRegistrationStatus ≠ m.nodeRegistrationStatus) :
    1 ≤ (applyOp m op).logins ∧
    (applyOp m op).state.nodeRegistrationStatus ≠ .unknown ∧
    ((applyOp m op).state.nodeRegistrationStatus = .noWallet → (applyOp m op).error.isSome) ∧
    ((applyOp m op).state.nodeRegistrationStatus = .unregistered ∨
      (applyOp m op).state.nodeRegistrationStatus = .registered →
      ∃ env₁, opUsesLoginEnv op env₁ ∧ (loginImpl m env₁).error = none ∧
        (applyOp m op).state = (loginImpl m env₁).state) := by
  cases op with
  | getStatus env =>
    exfalso
    apply hchange
    simp [applyOp, getStatus_cached m env h]
  | registerNode env =>
    exfalso
    apply hchange
    simp [applyOp, registerNode_state_known m env h]
  | loginOp env =>
    have hk := loginImpl_known m env h
    have hstate : (applyOp m (.loginOp env)).state = (loginImpl m env).state := by
      simp [applyOp, Login]
    have herr : (applyOp m (.loginOp env)).error = (loginImpl m env).error := by
      simp [applyOp, Login]
    refine ⟨by simp [applyOp], ?_, ?_, ?_⟩
    · rw [hstate]
      exact loginImpl_known_not_unknown m env h
    · intro hnw
      rw [herr]
      cases hle : (loginImpl m env).error with
      | none =>
        rcases hk.2 hle with h₁ | h₁ <;> rw [hstate, h₁] at hnw <;> simp at hnw
      | some le => simp
    · intro hkn
      cases hle : (loginImpl m env).error with
      | none => exact ⟨env, rfl, hle, hstate⟩
      | some le =>
        exfalso
        rcases hk.1 (by simp [hle]) with h₁ | h₁
        · exact hchange (by rw [hstate]; exact h₁)
        · rw [hstate, h₁] at hkn
          rcases hkn with h₂ | h₂ <;> simp at h₂
  | runReq request env =>
    rcases hr0 : request 0 with e | a
    · by_cases his : e.is .errInvalidSession = true
      · have hk := loginImpl_known m env h
        cases hle : (loginImpl m env).error with
        | some le =>
          have hstate : (applyOp m (.runReq request env)).state = (loginImpl m env).state := by
            simp [applyOp, runRequest, hr0, his, hle]
          have herr : (applyOp m (.runReq request env)).error = some le := by
            simp [applyOp, runRequest, hr0, his, hle, exceptError]
          refine ⟨by simp [applyOp, runRequest, hr0, his, hle], ?_, ?_, ?_⟩
          · rw [hstate]
            exact loginImpl_known_not_unknown m env h
          · intro _
            rw [herr]
            simp
          · intro hkn
            exfalso
            rcases hk.1 (by simp [hle]) with h₁ | h₁
            · exact hchange (by rw [hstate]; exact h₁)
            · rw [hstate, h₁] at hkn
              rcases hkn with h₂ | h₂ <;> simp at h₂
        | none =>
          have hstate : (applyOp m (.runReq request env)).state = (loginImpl m env).state := by
            simp [applyOp, runRequest, hr0, his, hle]
          refine ⟨by simp [applyOp, runRequest, hr0, his, hle], ?_, ?_, ?_⟩
          · rw [hstate]
            exact loginImpl_known_not_unknown m env h
          · intro hnw
            exfalso
            rcases hk.2 hle with h₁ | h₁ <;> rw [hstate, h₁] at hnw <;> simp at hnw
          · intro _
            exact ⟨env, rfl, hle, hstate⟩
      · exfalso
        apply hchange
        simp [applyOp, runRequest, hr0, his]
    · exfalso
      apply hchange
      simp [applyOp, runRequest, hr0]

/-- C7 witness: the amended statement instantiated at a `Registered`
manager and a login that finds the wallet no longer ready. -/
theorem c7_witness :
    1 ≤ (applyOp mRegisteredEx (.loginOp envUnloadedEx)).logins ∧
    (applyOp mRegisteredEx (.loginOp envUnloadedEx)).state.nodeRegistrationStatus ≠ .unknown ∧
    ((applyOp mRegisteredEx (.loginOp envUnloadedEx)).state.nodeRegistrationStatus = .noWallet →
      (applyOp mRegisteredEx (.loginOp envUnloadedEx)).error.isSome) ∧
    ((applyOp mRegisteredEx (.loginOp envUnloadedEx)).state.nodeRegistrationStatus =
        .unregistered ∨
      (applyOp mRegisteredEx (.loginOp envUnloadedEx)).state.nodeRegistrationStatus =
        .registered →
      ∃ env₁, opUsesLoginEnv (.loginOp envUnloadedEx) env₁ ∧
        (loginImpl mRegisteredEx env₁).error = none ∧
        (applyOp mRegisteredEx (.loginOp envUnloadedEx)).state =
          (loginImpl mRegisteredEx env₁).state) :=
  c7_known_status_transitions mRegisteredEx (.loginOp envUnloadedEx) (Or.inr rfl) (by decide)

lemma applyOp_unloaded_status (m : NodeSetServiceManager) (op : Op)
    (hop : opWalletUnloaded op)
    (hm : m.nodeRegistrationStatus = .unknown ∨ m.nodeRegistrationStatus = .noWallet) :
    (applyOp m op).state.nodeRegistrationStatus = .unknown ∨
    (applyOp m op).state.nodeRegistrationStatus = .noWallet := by
  cases op with
  | getStatus env =>
    have hl := loginImpl_unloaded m env hop
    simp [applyOp, getStatus_forced m env hm, hl]
  | loginOp env =>
    have hl := loginImpl_unloaded m env hop
    simp [applyOp, Login, hl]
  | registerNode env =>
    obtain ⟨ws, hws, hl⟩ := hop
    simpa [applyOp, RegisterNode, hws, hl] using hm
  | runReq request env =>
    rcases hr0 : request 0 with e | a
    · by_cases his : e.is .errInvalidSession = true
      · have hl := loginImpl_unloaded m env hop
        simp [applyOp, runRequest, hr0, his, hl]
      · simpa [applyOp, runRequest, hr0, his] using hm
    · simpa [applyOp, runRequest, hr0] using hm

lemma execOps_unloaded_status (ops : List Op) :
    (∀ op ∈ ops, opWalletUnloaded op) →
    ∀ m : NodeSetServiceManager,
      (m.nodeRegistrationStatus = .unknown ∨ m.nodeRegistrationStatus = .noWallet) →
      ((execOps m ops).nodeRegistrationStatus = .unknown ∨
        (execOps m ops).nodeRegistrationStatus = .noWallet) := by
  induction ops with
  | nil =>
    intro _ m hm
    simpa [execOps] using hm
  | cons op rest ih =>
    intro hall m hm
    simp only [execOps]
    exact ih (fun o ho => hall o (List.mem_cons_of_mem _ ho)) _
      (applyOp_unloaded_status m op (hall op (List.mem_cons_self _ _)) hm)

/-- C8: over any sequence of operations in which the wallet is never
loaded, every `GetRegistrationStatus` invocation returns `NoWallet`, the
login it forces bails out locally, and the invocation performs zero
network calls (hence never more than one). -/
theorem c8_no_wallet_sequences (ops : List Op) (env : LoginEnv)
    (hall : ∀ op ∈ ops, opWalletUnloaded op) (henv : envWalletUnloaded env) :
    (GetRegistrationStatus (execOps NewNodeSetServiceManager ops) env).status = .noWallet ∧
    (GetRegistrationStatus (execOps NewNodeSetServiceManager ops) env).logins = 1 ∧
    (GetRegistrationStatus (execOps NewNodeSetServiceManager ops) env).netCalls = 0 := by
  have hm := execOps_unloaded_status ops hall NewNodeSetServiceManager (Or.inl rfl)
  have hf := getStatus_forced (execOps NewNodeSetServiceManager ops) env hm
  have hl := loginImpl_unloaded (execOps NewNodeSetServiceManager ops) env henv
  rw [hf]
  simp [hl]

/-- C8 witness: a concrete never-loaded sequence of three operations, after
which `GetRegistrationStatus` reports `NoWallet` with zero network calls. -/
theorem c8_witness :
    (GetRegistrationStatus (execOps NewNodeSetServiceManager opsUnloadedEx)
      envUnloadedEx).status = .noWallet ∧
    (GetRegistrationStatus (execOps NewNodeSetServiceManager opsUnloadedEx)
      envUnloadedEx).logins = 1 ∧
    (GetRegistrationStatus (execOps NewNodeSetServiceManager opsUnloadedEx)
      envUnloadedEx).netCalls = 0 := by
  apply c8_no_wallet_sequences opsUnloadedEx envUnloadedEx
  · intro op hop
    simp only [opsUnloadedEx, List.mem_cons, List.not_mem_nil, or_false] at hop
    rcases hop with rfl | rfl | rfl
    · exact ⟨wsUnloaded, rfl, rfl⟩
    · exact ⟨wsUnloaded, rfl, rfl⟩
    · exact ⟨wsUnloaded, rfl, rfl⟩
  · exact ⟨wsUnloaded, rfl, rfl⟩

/-- C9: for the domain sub-client route handlers (StakeWise get-vaults and
Constellation get-registration-signature), a failing call maps to exactly
one of two outcomes: a recognized sentinel (not registered at the
requirement stage; invalid permissions, node unauthorized, incorrect node
address at the operation stage) sets the corresponding boolean flag and
yields a success response with nil error, while any unrecognized error
yields a generic error response with no flag set. -/
theorem c9_known_remote_errors_to_flags :
    (∀ (m : NodeSetServiceManager) (wsRes : Except GoError WalletStatus)
        (regEnv : LoginEnv) (request : Nat → Except GoError (List Nat)) (opEnv : LoginEnv),
      RequireWalletReady wsRes = none →
      (∀ e, (RequireRegisteredWithNodeSet m regEnv).2 = some e →
        (e.is .errNotRegisteredWithNodeSet = true →
          stakeWiseGetVaultsPrepareData m wsRes regEnv request opEnv =
            { status := .success, error := none, data := { notRegistered := true },
              state := (RequireRegisteredWithNodeSet m regEnv).1 }) ∧
        (e.is .errNotRegisteredWithNodeSet = false →
          stakeWiseGetVaultsPrepareData m wsRes regEnv request opEnv =
            { status := .error, error := some e, data := {},
              state := (RequireRegisteredWithNodeSet m regEnv).1 })) ∧
      (∀ e, (RequireRegisteredWithNodeSet m regEnv).2 = none →
        (StakeWise_GetVaults (RequireRegisteredWithNodeSet m regEnv).1 request
          opEnv).result = .error e →
        (e.is .swErrInvalidPermissions = true →
          stakeWiseGetVaultsPrepareData m wsRes regEnv request opEnv =
            { status := .success, error := none, data := { invalidPermissions := true },
              state := (StakeWise_GetVaults (RequireRegisteredWithNodeSet m regEnv).1 request
                opEnv).state }) ∧
        (e.is .swErrInvalidPermissions = false →
          stakeWiseGetVaultsPrepareData m wsRes regEnv request opEnv =
            { status := .error, error := some e, data := {},
              state := (StakeWise_GetVaults (RequireRegisteredWithNodeSet m regEnv).1 request
                opEnv).state }))) ∧
    (∀ (m : NodeSetServiceManager) (wsRes : Except GoError WalletStatus)
        (regEnv : LoginEnv) (request : Nat → Except GoError String) (opEnv : LoginEnv),
      RequireWalletReady wsRes = none →
      (∀ e, (RequireRegisteredWithNodeSet m regEnv).2 = some e →
        (e.is .errNotRegisteredWithNodeSet = true →
          constellationGetRegistrationSignaturePrepareData m wsRes regEnv request opEnv =
            { status := .success, error := none, data := { notRegistered := true },
              state := (RequireRegisteredWithNodeSet m regEnv).1 }) ∧
        (e.is .errNotRegisteredWithNodeSet = false →
          constellationGetRegistrationSignaturePrepareData m wsRes regEnv request opEnv =
            { status := .error, error := some e, data := {},
              state := (RequireRegisteredWithNodeSet m regEnv).1 })) ∧
      (∀ e, (RequireRegisteredWithNodeSet m regEnv).2 = none →
        (Constellation_GetRegistrationSignature (RequireRegisteredWithNodeSet m regEnv).1
          request opEnv).result = .error e →
        (e.is .errNodeUnauthorized = true →
          constellationGetRegistrationSignaturePrepareData m wsRes regEnv request opEnv =
            { status := .success, error := none, data := { notAuthorized := true },
              state := (Constellation_GetRegistrationSignature
                (RequireRegisteredWithNodeSet m regEnv).1 request opEnv).state }) ∧
        (e.is .errNodeUnauthorized = false → e.is .errInvalidPermissions = true →
          constellationGetRegistrationSignaturePrepareData m wsRes regEnv request opEnv =
            { status := .success, error := none, data := { invalidPermissions := true },
              state := (Constellation_GetRegistrationSignature
                (RequireRegisteredWithNodeSet m regEnv).1 request opEnv).state }) ∧
        (e.is .errNodeUnauthorized = false → e.is .errInvalidPermissions = false →
          e.is .errIncorrectNodeAddress = true →
          constellationGetRegistrationSignaturePrepareData m wsRes regEnv request opEnv =
            { status := .success, error := none, data := { incorrectNodeAddress := true },
              state := (Constellation_GetRegistrationSignature
                (RequireRegisteredWithNodeSet m regEnv).1 request opEnv).state }) ∧
        (e.is .errNodeUnauthorized = false → e.is .errInvalidPermissions = false →
          e.is .errIncorrectNodeAddress = false →
          constellationGetRegistrationSignaturePrepareData m wsRes regEnv request opEnv =
            { status := .error, error := some e, data := {},
              state := (Constellation_GetRegistrationSignature
                (RequireRegisteredWithNodeSet m regEnv).1 request opEnv).state }))) := by
  constructor
  · intro m wsRes regEnv request opEnv hwr
    constructor
    · intro e hreq
      constructor
      · intro h₁
        simp [stakeWiseGetVaultsPrepareData, hwr, hreq, h₁]
      · intro h₁
        simp [stakeWiseGetVaultsPrepareData, hwr, hreq, h₁]
    · intro e hreq hres
      constructor
      · intro h₁
        simp [stakeWiseGetVaultsPrepareData, hwr, hreq, hres, h₁]
      · intro h₁
        simp [stakeWiseGetVaultsPrepareData, hwr, hreq, hres, h₁]
  · intro m wsRes regEnv request opEnv hwr
    constructor
    · intro e hreq
      constructor
      · intro h₁
        simp [constellationGetRegistrationSignaturePrepareData, hwr, hreq, h₁]
      · intro h₁
        simp [constellationGetRegistrationSignaturePrepareData, hwr, hreq, h₁]
    · intro e hreq hres
      refine ⟨?_, ?_, ?_, ?_⟩
      · intro h₁
        simp [constellationGetRegistrationSignaturePrepareData, hwr, hreq, hres, h₁]
      · intro h₁ h₂
        simp [constellationGetRegistrationSignaturePrepareData, hwr, hreq, hres, h₁, h₂]
      · intro h₁ h₂ h₃
        simp [constellationGetRegistrationSignaturePrepareData, hwr, hreq, hres, h₁, h₂, h₃]
      · intro h₁ h₂ h₃
        simp [constellationGetRegistrationSignaturePrepareData, hwr, hreq, hres, h₁, h₂, h₃]

/-- C9 witness: concrete failing calls — a StakeWise vaults request failing
with the invalid-permissions sentinel yields a success response with the
flag set, and a Constellation whitelist request failing with the
node-unauthorized sentinel likewise. -/
theorem c9_witness :
    stakeWiseGetVaultsPrepareData mRegisteredEx (.ok wsReady) envNonceFailEx
      reqSwInvalidPermsEx envNonceFailEx =
      { status := .success, error := none, data := { invalidPermissions := true },
        state := (StakeWise_GetVaults
          (RequireRegisteredWithNodeSet mRegisteredEx envNonceFailEx).1 reqSwInvalidPermsEx
          envNonceFailEx).state } ∧
    constellationGetRegistrationSignaturePrepareData mRegisteredEx (.ok wsReady) envNonceFailEx
      reqConstUnauthorizedEx envNonceFailEx =
      { status := .success, error := none, data := { notAuthorized := true },
        state := (Constellation_GetRegistrationSignature
          (RequireRegisteredWithNodeSet mRegisteredEx envNonceFailEx).1 reqConstUnauthorizedEx
          envNonceFailEx).state } := by
  constructor
  · exact ((c9_known_remote_errors_to_flags.1 mRegisteredEx (.ok wsReady) envNonceFailEx
      reqSwInvalidPermsEx envNonceFailEx (by decide)).2
      (.wrapped "error getting registered validators" .swErrInvalidPermissions)
      (by decide) rfl).1 (by decide)
  · exact ((c9_known_remote_errors_to_flags.2 mRegisteredEx (.ok wsReady) envNonceFailEx
      reqConstUnauthorizedEx envNonceFailEx (by decide)).2
      (.wrapped "error registering with Constellation" .errNodeUnauthorized)
      (by decide) rfl).1 (by decide)

/-- C10: the get-registration-status route always answers with response
status `Success` and a nil route error; the status field mirrors the
answer of the manager, and the error text is copied into `ErrorMessage` only
when the reported status is `Unknown` — in particular a login error next
to a non-`Unknown` status (such as `NoWallet`) leaves `ErrorMessage`
empty. -/
theorem c10_route_always_success (m : NodeSetServiceManager) (env : LoginEnv) :
    (nodeSetGetRegistrationStatusPrepareData m env).status = .success ∧
    (nodeSetGetRegistrationStatusPrepareData m env).error = none ∧
    (nodeSetGetRegistrationStatusPrepareData m env).data.status =
      (GetRegistrationStatus m env).status ∧
    (∀ e, (GetRegistrationStatus m env).error = some e →
      (GetRegistrationStatus m env).status = .unknown →
      (nodeSetGetRegistrationStatusPrepareData m env).data.errorMessage = e.message) ∧
    ((GetRegistrationStatus m env).status ≠ .unknown →
      (nodeSetGetRegistrationStatusPrepareData m env).data.errorMessage = "") ∧
    ((GetRegistrationStatus m env).error = none →
      (nodeSetGetRegistrationStatusPrepareData m env).data.errorMessage = "") := by
  cases herr : (GetRegistrationStatus m env).error with
  | none =>
    simp [nodeSetGetRegistrationStatusPrepareData, herr]
  | some e =>
    by_cases hs : (GetRegistrationStatus m env).status = .unknown
    · simp [nodeSetGetRegistrationStatusPrepareData, herr, hs]
    · simp [nodeSetGetRegistrationStatusPrepareData, herr, hs]

/-- C10 witness: with no wallet, the route reports `Success`, the
`NoWallet` status, and an empty error message despite the login error. -/
theorem c10_witness :
    (nodeSetGetRegistrationStatusPrepareData NewNodeSetServiceManager envUnloadedEx).status =
      .success ∧
    (nodeSetGetRegistrationStatusPrepareData NewNodeSetServiceManager
      envUnloadedEx).data.status = .noWallet ∧
    (GetRegistrationStatus NewNodeSetServiceManager envUnloadedEx).error.isSome = true ∧
    (nodeSetGetRegistrationStatusPrepareData NewNodeSetServiceManager
      envUnloadedEx).data.errorMessage = "" := by
  obtain ⟨h₁, _, h₃, _, h₅, _⟩ :=
    c10_route_always_success NewNodeSetServiceManager envUnloadedEx
  refine ⟨h₁, ?_, by decide, h₅ (by decide)⟩
  rw [h₃]
  decide
